import Mathlib

/-!
Shallow embedding of `testingRandomUser.js` and `taiko-login.js`.

The Page Driver (Playwright `page` / element handles) is modelled as an
abstract capability record over a state type `σ`: element handles are `Nat`,
every asynchronous driver operation returns `Except Fault _` (a rejected
promise is `Except.error`), operations that mutate the page (`goto`, `click`,
`waitForTimeout`) return a new state, and the pure synchronous accessors
(`page.url()`, `page.viewportSize()`) are plain functions.  JavaScript
`undefined` for a missing object key is modelled with `Option`; numeric
coordinates and computed opacities are modelled with `Rat`.
-/

namespace RandomUserChecks

/-- A Page Driver fault: a rejected promise / thrown error from the
browser-automation engine (e.g. a navigation failure). -/
structure Fault where
  msg : String
deriving DecidableEq, Repr

/-- Result of `page.viewportSize()`. -/
structure Viewport where
  width : Rat
  height : Rat
deriving DecidableEq, Repr

/-- Result of `elementHandle.boundingBox()`. -/
structure Box where
  x : Rat
  y : Rat
  width : Rat
  height : Rat
deriving DecidableEq, Repr

/-- The heterogeneous `details` payloads that the checks in
`testingRandomUser.js` actually construct. -/
inductive Details where
  | count (n : Nat)
  | index (i : Nat)
  | readability (hasTitle hasText : Bool)
  | center (deltaX deltaY : Rat) (viewport : Viewport)
  | search (next prev slider : Bool) (radios checkboxes : Nat)
  | photos (initialOpacity laterOpacity : Rat) (transitionStyle : String)
  | anchors (n : Nat)
  | bars (n : Nat)
  | donate (robotCheckbox captchaFrame : Bool)
deriving DecidableEq, Repr

/-- `{ ok: boolean, message?: string, details?: any }` returned by every
check function. -/
structure CheckResult where
  ok : Bool
  message : Option String := none
  details : Option Details := none
deriving DecidableEq, Repr

/-- The `selectors` object.  Each field is `Option String` because a
caller-supplied selectors object may omit keys (JS `undefined`). -/
structure Selectors where
  userCard : Option String := none
  userName : Option String := none
  userEmail : Option String := none
  userNationality : Option String := none
  refresh : Option String := none
  navbarSecondItem : Option String := none
  userPhotoImg : Option String := none
  documentation : Option String := none
  versionsNav : Option String := none
  accessChart : Option String := none
  donateSection : Option String := none
deriving DecidableEq, Repr

/-- A caller-supplied `options` argument: both top-level keys may be absent. -/
structure OptionsJs where
  url : Option String := none
  selectors : Option Selectors := none
deriving DecidableEq, Repr

/-- A fully-populated configuration (the shape of `DEFAULT_OPTIONS` and of
the result of the spread merge). -/
structure Config where
  url : String
  selectors : Selectors
deriving DecidableEq, Repr

/-- `DEFAULT_OPTIONS` from `testingRandomUser.js`. -/
def DEFAULT_OPTIONS : Config :=
  { url := "http://localhost:3000"
    selectors :=
      { userCard := some ".user-card"
        userName := some ".user-name"
        userEmail := some ".user-email"
        userNationality := some ".user-nationality"
        refresh := some "#refresh"
        navbarSecondItem := some "nav >> nth=1"
        userPhotoImg := some ".user-photo img"
        documentation := some "#documentation, .documentation"
        versionsNav := some "nav >> text=Versioni, nav >> text=RandomUser Versions, nav >> text=versioni"
        accessChart := some ".access-chart, #access-chart"
        donateSection := some "#donate, .donate" } }

/-- `const opts = { ...DEFAULT_OPTIONS, ...options }`: the JS object spread
is a shallow merge per top-level key — a key present in `options` replaces
the default value of that key as a whole. -/
def mergeOptions (options : OptionsJs) : Config :=
  { url := options.url.getD DEFAULT_OPTIONS.url
    selectors := options.selectors.getD DEFAULT_OPTIONS.selectors }

/-- The Page Driver capability set, abstracted over a page-state type `σ`.
`q`/`qa` are `page.$`/`page.$$`, `elemQ`/`elemQA` are `handle.$`/`handle.$$`;
selector arguments are `Option String` because the checks pass whatever the
merged configuration holds (possibly `undefined`). -/
structure Driver (σ : Type) where
  url : σ → String
  viewport : σ → Option Viewport
  goto : σ → String → Except Fault σ
  q : σ → Option String → Except Fault (Option Nat)
  qa : σ → Option String → Except Fault (List Nat)
  elemQ : σ → Nat → Option String → Except Fault (Option Nat)
  elemQA : σ → Nat → Option String → Except Fault (List Nat)
  bbox : σ → Nat → Except Fault (Option Box)
  attr : σ → Nat → String → Except Fault (Option String)
  opacityOf : σ → Nat → Except Fault Rat
  transitionOf : σ → Nat → Except Fault String
  click : σ → Nat → Except Fault σ
  waitTimeout : σ → Nat → σ

variable {σ : Type}

/-- `ensurePage(page, url)`: navigate only when the current location is
falsy (empty) or `about:blank`. -/
def ensurePage (d : Driver σ) (s : σ) (url : String) : Except Fault σ :=
  let current := d.url s
  if current = "" ∨ current = "about:blank" then d.goto s url else .ok s

/-- The `for` loop of `checkUserCards`: probe each card for the three
mandatory sub-elements; an early `return` is `.ok (some r)`. -/
def userCardsLoop (d : Driver σ) (s : σ) (sel : Selectors) :
    List Nat → Nat → Except Fault (Option CheckResult)
  | [], _ => .ok none
  | card :: rest, i =>
    match d.elemQ s card sel.userName with
    | .error f => .error f
    | .ok name =>
      match d.elemQ s card sel.userEmail with
      | .error f => .error f
      | .ok email =>
        match d.elemQ s card sel.userNationality with
        | .error f => .error f
        | .ok nat =>
          if name.isNone || email.isNone || nat.isNone then
            .ok (some { ok := false
                        message := some ("Card " ++ toString i ++ " mancano campi obbligatori")
                        details := some (.index i) })
          else
            userCardsLoop d s sel rest (i + 1)

/-- `checkUserCards(page, options)`. -/
def checkUserCards (d : Driver σ) (s : σ) (options : OptionsJs) :
    Except Fault (CheckResult × σ) :=
  let opts := mergeOptions options
  match ensurePage d s opts.url with
  | .error f => .error f
  | .ok s =>
    let sel := opts.selectors
    match d.qa s sel.userCard with
    | .error f => .error f
    | .ok cards =>
      if cards.length = 0 then
        .ok ({ ok := false, message := some "Nessuna user card trovata"
               details := some (.count 0) }, s)
      else
        match userCardsLoop d s sel cards 0 with
        | .error f => .error f
        | .ok (some r) => .ok (r, s)
        | .ok none =>
          .ok ({ ok := true, message := some "User cards OK"
                 details := some (.count cards.length) }, s)

/-- `checkRefreshCenters(page, options)`: click the refresh control when
present, then compare the first card's bounding-box center to the viewport
center (falling back to 1024×768 when `viewportSize()` is null). -/
def checkRefreshCenters (d : Driver σ) (s : σ) (options : OptionsJs) :
    Except Fault (CheckResult × σ) :=
  let opts := mergeOptions options
  match ensurePage d s opts.url with
  | .error f => .error f
  | .ok s =>
    let sel := opts.selectors
    match d.q s sel.refresh with
    | .error f => .error f
    | .ok refreshEl =>
      let clicked : Except Fault σ :=
        match refreshEl with
        | some r => d.click s r
        | none => .ok s
      match clicked with
      | .error f => .error f
      | .ok s =>
        match d.q s sel.userCard with
        | .error f => .error f
        | .ok none =>
          .ok ({ ok := false, message := some "Nessuna card trovata dopo refresh" }, s)
        | .ok (some card) =>
          match d.bbox s card with
          | .error f => .error f
          | .ok box =>
            let viewport := (d.viewport s).getD { width := 1024, height := 768 }
            match box with
            | none =>
              .ok ({ ok := false
                     message := some "Impossibile leggere bounding box della card" }, s)
            | some box =>
              let cardCenterX := box.x + box.width / 2
              let cardCenterY := box.y + box.height / 2
              let deltaX := |cardCenterX - viewport.width / 2|
              let deltaY := |cardCenterY - viewport.height / 2|
              let ok := decide (deltaX < viewport.width * 0.25) &&
                        decide (deltaY < viewport.height * 0.25)
              .ok ({ ok := ok
                     message := some (if ok then "Card centrata" else "Card non centrata")
                     details := some (.center deltaX deltaY viewport) }, s)

/-- The `for` loop of `checkReadableInfo`: each card must own a heading-like
and a text-like descendant. -/
def readableLoop (d : Driver σ) (s : σ) :
    List Nat → Nat → Except Fault (Option CheckResult)
  | [], _ => .ok none
  | card :: rest, i =>
    match d.elemQ s card (some "h1, h2, h3, h4, h5, .title") with
    | .error f => .error f
    | .ok title =>
      match d.elemQ s card (some "p, span, .desc, .info") with
      | .error f => .error f
      | .ok text =>
        let hasTitle := title.isSome
        let hasText := text.isSome
        if !hasTitle || !hasText then
          .ok (some { ok := false
                      message := some ("Card " ++ toString i ++ " non ha titolo o testo descrittivo")
                      details := some (.readability hasTitle hasText) })
        else
          readableLoop d s rest (i + 1)

/-- `checkReadableInfo(page, options)`. -/
def checkReadableInfo (d : Driver σ) (s : σ) (options : OptionsJs) :
    Except Fault (CheckResult × σ) :=
  let opts := mergeOptions options
  match ensurePage d s opts.url with
  | .error f => .error f
  | .ok s =>
    let sel := opts.selectors
    match d.qa s sel.userCard with
    | .error f => .error f
    | .ok cards =>
      if cards.length = 0 then
        .ok ({ ok := false, message := some "Nessuna card per verifica leggibilità" }, s)
      else
        match readableLoop d s cards 0 with
        | .error f => .error f
        | .ok (some r) => .ok (r, s)
        | .ok none =>
          .ok ({ ok := true
                 message := some "Informazioni di facile comprensione presenti" }, s)

/-- `checkAdvancedSearchControls(page, options)`. -/
def checkAdvancedSearchControls (d : Driver σ) (s : σ) (options : OptionsJs) :
    Except Fault (CheckResult × σ) :=
  let opts := mergeOptions options
  match ensurePage d s opts.url with
  | .error f => .error f
  | .ok s =>
    match d.q s (some "button[aria-label=\"avanti\"], button[aria-label=\"next\"], button:has-text(\"Avanti\")") with
    | .error f => .error f
    | .ok next =>
      match d.q s (some "button[aria-label=\"indietro\"], button[aria-label=\"prev\"], button:has-text(\"Indietro\")") with
      | .error f => .error f
      | .ok prev =>
        match d.q s (some "input[type=\"range\"]") with
        | .error f => .error f
        | .ok slider =>
          match d.qa s (some "[type=\"radio\"][name=\"gender\"]") with
          | .error f => .error f
          | .ok radios =>
            match d.qa s (some "[type=\"checkbox\"][name=\"nationality\"]") with
            | .error f => .error f
            | .ok checkboxes =>
              let ok := (next.isSome || prev.isSome) && slider.isSome &&
                        decide (radios.length ≥ 2) && decide (checkboxes.length ≥ 1)
              .ok ({ ok := ok
                     message := some (if ok then "Controlli ricerca presenti"
                                      else "Controlli ricerca mancanti o insufficienti")
                     details := some (.search next.isSome prev.isSome slider.isSome
                                        radios.length checkboxes.length) }, s)

/-- `checkNavbarPhotos(page, options)`: click the second navbar item, then
sample the first photo's computed opacity before and after a 500 ms wait. -/
def checkNavbarPhotos (d : Driver σ) (s : σ) (options : OptionsJs) :
    Except Fault (CheckResult × σ) :=
  let opts := mergeOptions options
  match ensurePage d s opts.url with
  | .error f => .error f
  | .ok s =>
    let sel := opts.selectors
    match d.q s sel.navbarSecondItem with
    | .error f => .error f
    | .ok none => .ok ({ ok := false, message := some "Seconda voce navbar non trovata" }, s)
    | .ok (some nav) =>
      match d.click s nav with
      | .error f => .error f
      | .ok s =>
        match d.qa s sel.userPhotoImg with
        | .error f => .error f
        | .ok [] => .ok ({ ok := false, message := some "Nessuna foto utente trovata" }, s)
        | .ok (first :: _) =>
          match d.opacityOf s first with
          | .error f => .error f
          | .ok initialOpacity =>
            let s := d.waitTimeout s 500
            match d.opacityOf s first with
            | .error f => .error f
            | .ok laterOpacity =>
              match d.transitionOf s first with
              | .error f => .error f
              | .ok transitionStyle =>
                let ok := decide (laterOpacity ≥ initialOpacity) ||
                          decide (transitionStyle.length > 0)
                .ok ({ ok := ok
                       message := some (if ok then "Foto con effetto progressivo rilevato"
                                        else "Effetto progressivo non evidente")
                       details := some (.photos initialOpacity laterOpacity transitionStyle) }, s)

/-- JavaScript `s.startsWith(p)` (used by the anchor check): `p.data` is a
list prefix of `s.data`.  Lean's own `String.startsWith` is defined through
well-founded recursion and does not reduce in the kernel, so the embedding
uses the list form. -/
def jsStartsWith (s p : String) : Bool :=
  p.data.isPrefixOf s.data

/-- The `for` loop of `checkDocumentationAnchors`: every internal anchor's
`href` target id must exist on the page. -/
def anchorsLoop (d : Driver σ) (s : σ) :
    List Nat → Except Fault (Option CheckResult)
  | [] => .ok none
  | a :: rest =>
    match d.attr s a "href" with
    | .error f => .error f
    | .ok href =>
      match href with
      | some h =>
        if h ≠ "" ∧ jsStartsWith h "#" then
          let targetId := h.drop 1
          match d.q s (some ("#" ++ targetId)) with
          | .error f => .error f
          | .ok none =>
            .ok (some { ok := false
                        message := some ("Anchor punta a id mancante: " ++ targetId) })
          | .ok (some _) => anchorsLoop d s rest
        else anchorsLoop d s rest
      | none => anchorsLoop d s rest

/-- `checkDocumentationAnchors(page, options)`. -/
def checkDocumentationAnchors (d : Driver σ) (s : σ) (options : OptionsJs) :
    Except Fault (CheckResult × σ) :=
  let opts := mergeOptions options
  match ensurePage d s opts.url with
  | .error f => .error f
  | .ok s =>
    let sel := opts.selectors
    match d.q s sel.documentation with
    | .error f => .error f
    | .ok none => .ok ({ ok := false, message := some "Sezione documentazione non trovata" }, s)
    | .ok (some docs) =>
      match d.elemQA s docs (some "a[href^=\"#\"]") with
      | .error f => .error f
      | .ok anchors =>
        if anchors.length = 0 then
          .ok ({ ok := false, message := some "Nessun anchor interno nella documentazione" }, s)
        else
          match anchorsLoop d s anchors with
          | .error f => .error f
          | .ok (some r) => .ok (r, s)
          | .ok none =>
            .ok ({ ok := true, message := some "Anchors validi nella documentazione"
                   details := some (.anchors anchors.length) }, s)

/-- `checkVersionsNav(page, options)`. -/
def checkVersionsNav (d : Driver σ) (s : σ) (options : OptionsJs) :
    Except Fault (CheckResult × σ) :=
  let opts := mergeOptions options
  match ensurePage d s opts.url with
  | .error f => .error f
  | .ok s =>
    let sel := opts.selectors
    match d.q s sel.versionsNav with
    | .error f => .error f
    | .ok nav =>
      .ok ({ ok := nav.isSome
             message := some (if nav.isSome then "Voce versioni presente"
                              else "Voce versioni assente") }, s)

/-- `checkAccessChart(page, options)`. -/
def checkAccessChart (d : Driver σ) (s : σ) (options : OptionsJs) :
    Except Fault (CheckResult × σ) :=
  let opts := mergeOptions options
  match ensurePage d s opts.url with
  | .error f => .error f
  | .ok s =>
    let sel := opts.selectors
    match d.q s sel.accessChart with
    | .error f => .error f
    | .ok none => .ok ({ ok := false, message := some "Grafico accessi non trovato" }, s)
    | .ok (some chart) =>
      match d.elemQA s chart (some "[class*=\"bar\"], [class*=\"day\"], div[data-progress]") with
      | .error f => .error f
      | .ok bars =>
        let ok := decide (bars.length > 0)
        .ok ({ ok := ok
               message := some (if ok then "Grafico con elementi progressivi"
                                else "Grafico privo di elementi progressivi")
               details := some (.bars bars.length) }, s)

/-- `checkDonateAntiBot(page, options)`. -/
def checkDonateAntiBot (d : Driver σ) (s : σ) (options : OptionsJs) :
    Except Fault (CheckResult × σ) :=
  let opts := mergeOptions options
  match ensurePage d s opts.url with
  | .error f => .error f
  | .ok s =>
    let sel := opts.selectors
    match d.q s sel.donateSection with
    | .error f => .error f
    | .ok none => .ok ({ ok := false, message := some "Sezione donate non trovata" }, s)
    | .ok (some donate) =>
      match d.elemQ s donate (some "input[type=\"checkbox\"][aria-label*=\"robot\"], label:has-text(\"non sono un robot\")") with
      | .error f => .error f
      | .ok robotCheckbox =>
        match d.elemQ s donate (some "iframe[src*=\"recaptcha\"], iframe[src*=\"hcaptcha\"]") with
        | .error f => .error f
        | .ok captchaFrame =>
          let ok := robotCheckbox.isSome || captchaFrame.isSome
          .ok ({ ok := ok
                 message := some (if ok then "Anti-bot presente" else "Anti-bot non trovato")
                 details := some (.donate robotCheckbox.isSome captchaFrame.isSome) }, s)

/-- The `results` object built by `runAll`, in insertion order. -/
structure Results where
  userCards : CheckResult
  refreshCenter : CheckResult
  readableInfo : CheckResult
  advancedSearch : CheckResult
  navbarPhotos : CheckResult
  documentation : CheckResult
  versionsNav : CheckResult
  accessChart : CheckResult
  donate : CheckResult
deriving DecidableEq, Repr

/-- `Object.values(results)` in insertion order. -/
def Results.values (r : Results) : List CheckResult :=
  [r.userCards, r.refreshCenter, r.readableInfo, r.advancedSearch, r.navbarPhotos,
   r.documentation, r.versionsNav, r.accessChart, r.donate]

/-- `{ ok: boolean }` wrapper used by the report. -/
structure Overall where
  ok : Bool
deriving DecidableEq, Repr

/-- `{ overall, details }` returned by `runAll`. -/
structure Report where
  overall : Overall
  details : Results
deriving DecidableEq, Repr

/-- `runAll(page, options)`: run the nine checks in fixed order on the same
page handle and fold their `ok` flags with `Object.values(...).every`. -/
def runAll (d : Driver σ) (s : σ) (options : OptionsJs) :
    Except Fault (Report × σ) :=
  match checkUserCards d s options with
  | .error f => .error f
  | .ok (r1, s) =>
    match checkRefreshCenters d s options with
    | .error f => .error f
    | .ok (r2, s) =>
      match checkReadableInfo d s options with
      | .error f => .error f
      | .ok (r3, s) =>
        match checkAdvancedSearchControls d s options with
        | .error f => .error f
        | .ok (r4, s) =>
          match checkNavbarPhotos d s options with
          | .error f => .error f
          | .ok (r5, s) =>
            match checkDocumentationAnchors d s options with
            | .error f => .error f
            | .ok (r6, s) =>
              match checkVersionsNav d s options with
              | .error f => .error f
              | .ok (r7, s) =>
                match checkAccessChart d s options with
                | .error f => .error f
                | .ok (r8, s) =>
                  match checkDonateAntiBot d s options with
                  | .error f => .error f
                  | .ok (r9, s) =>
                    let results : Results :=
                      { userCards := r1, refreshCenter := r2, readableInfo := r3
                        advancedSearch := r4, navbarPhotos := r5, documentation := r6
                        versionsNav := r7, accessChart := r8, donate := r9 }
                    let overall := results.values.all (fun r => r.ok)
                    .ok ({ overall := { ok := overall }, details := results }, s)

/-- `firstSelectorExists(page, selectors)` from `taiko-login.js`: try the
selectors in order and return the first whose `page.$` finds an element. -/
def firstSelectorExists (d : Driver σ) (s : σ) :
    List String → Except Fault (Option String)
  | [] => .ok none
  | sel :: rest =>
    match d.q s (some sel) with
    | .error f => .error f
    | .ok (some _) => .ok (some sel)
    | .ok none => firstSelectorExists d s rest

/-- The common shape of all nine exposed check functions. -/
abbrev CheckFn (σ : Type) :=
  Driver σ → σ → OptionsJs → Except Fault (CheckResult × σ)

/-- The nine checks, in the fixed order `runAll` executes them. -/
def allChecks (σ : Type) : List (CheckFn σ) :=
  [checkUserCards, checkRefreshCenters, checkReadableInfo, checkAdvancedSearchControls,
   checkNavbarPhotos, checkDocumentationAnchors, checkVersionsNav, checkAccessChart,
   checkDonateAntiBot]

/-- A driver none of whose operations ever rejects. -/
structure FaultFree (d : Driver σ) : Prop where
  goto : ∀ s u, ∃ t, d.goto s u = .ok t
  q : ∀ s sel, ∃ v, d.q s sel = .ok v
  qa : ∀ s sel, ∃ v, d.qa s sel = .ok v
  elemQ : ∀ s e sel, ∃ v, d.elemQ s e sel = .ok v
  elemQA : ∀ s e sel, ∃ v, d.elemQA s e sel = .ok v
  bbox : ∀ s e, ∃ v, d.bbox s e = .ok v
  attr : ∀ s e a, ∃ v, d.attr s e a = .ok v
  opacityOf : ∀ s e, ∃ v, d.opacityOf s e = .ok v
  transitionOf : ∀ s e, ∃ v, d.transitionOf s e = .ok v
  click : ∀ s e, ∃ t, d.click s e = .ok t

/-- A driver on whose pages every probed element is absent: all queries
succeed and find nothing. -/
structure AllAbsent (d : Driver σ) : Prop where
  q : ∀ s sel, d.q s sel = .ok none
  qa : ∀ s sel, d.qa s sel = .ok []
  elemQ : ∀ s e sel, d.elemQ s e sel = .ok none
  elemQA : ∀ s e sel, d.elemQA s e sel = .ok []

/-- A concrete page snapshot: the answers every driver query will give.
Element handles are `Nat`; every operation succeeds. -/
structure SimplePage where
  url : String := "http://localhost:3000"
  viewport : Option Viewport := none
  pageQ : Option String → Option Nat := fun _ => none
  pageQA : Option String → List Nat := fun _ => []
  elemQ : Nat → Option String → Option Nat := fun _ _ => none
  elemQA : Nat → Option String → List Nat := fun _ _ => []
  boxes : Nat → Option Box := fun _ => none
  attrs : Nat → String → Option String := fun _ _ => none
  opacities : Nat → Rat := fun _ => 1
  transitions : Nat → String := fun _ => ""

/-- A fault-free driver over `SimplePage` snapshots: `goto` records the new
URL, `click` and `waitTimeout` leave the snapshot unchanged. -/
def simpleDriver : Driver SimplePage :=
  { url := fun s => s.url
    viewport := fun s => s.viewport
    goto := fun s u => .ok { s with url := u }
    q := fun s sel => .ok (s.pageQ sel)
    qa := fun s sel => .ok (s.pageQA sel)
    elemQ := fun s e sel => .ok (s.elemQ e sel)
    elemQA := fun s e sel => .ok (s.elemQA e sel)
    bbox := fun s e => .ok (s.boxes e)
    attr := fun s e a => .ok (s.attrs e a)
    opacityOf := fun s e => .ok (s.opacities e)
    transitionOf := fun s e => .ok (s.transitions e)
    click := fun s _ => .ok s
    waitTimeout := fun s _ => s }

/-- A fault-free driver on which every element query finds nothing. -/
def absentDriver : Driver Unit :=
  { url := fun _ => "http://localhost:3000"
    viewport := fun _ => none
    goto := fun _ _ => .ok ()
    q := fun _ _ => .ok none
    qa := fun _ _ => .ok []
    elemQ := fun _ _ _ => .ok none
    elemQA := fun _ _ _ => .ok []
    bbox := fun _ _ => .ok none
    attr := fun _ _ _ => .ok none
    opacityOf := fun _ _ => .ok 1
    transitionOf := fun _ _ => .ok ""
    click := fun _ _ => .ok ()
    waitTimeout := fun s _ => s }

/-- A driver sitting on a blank page whose navigation faults (unreachable
target), as in the Driver-fault branch of the error taxonomy. -/
def faultyNavDriver : Driver Unit :=
  { absentDriver with
    url := fun _ => ""
    goto := fun _ _ => .error { msg := "net::ERR_CONNECTION_REFUSED" } }

/-- A page with `n` user cards, each owning name, email and nationality
sub-elements. -/
def cardsPage (n : Nat) : SimplePage :=
  { pageQA := fun sel => if sel = some ".user-card" then List.range n else []
    elemQ := fun _ sel =>
      if sel = some ".user-name" ∨ sel = some ".user-email" ∨
         sel = some ".user-nationality" then some 100 else none }

/-- A page with a single user card of bounding box `b`, no refresh control,
and viewport `vp`. -/
def cardPage (vp : Option Viewport) (b : Box) : SimplePage :=
  { viewport := vp
    pageQ := fun sel => if sel = some ".user-card" then some 0 else none
    boxes := fun _ => some b }

/-- The `CheckResult` part of `checkRefreshCenters` on a `cardPage`. -/
def refreshResultOn (vp : Option Viewport) (b : Box) : Option CheckResult :=
  match checkRefreshCenters simpleDriver (cardPage vp b) {} with
  | .ok (r, _) => some r
  | .error _ => none

/-- The `ok` flag of `checkRefreshCenters` on a `cardPage` with an explicit
1024×768 viewport. -/
def refreshOk (b : Box) : Bool :=
  match checkRefreshCenters simpleDriver
      (cardPage (some { width := 1024, height := 768 }) b) {} with
  | .ok (r, _) => r.ok
  | .error _ => false

/-- A page exposing the advanced-search controls selected by flags and
counts: next/prev buttons, range slider, gender radios, nationality
checkboxes. -/
def searchPage (next prev slider : Bool) (radios checkboxes : Nat) : SimplePage :=
  { pageQ := fun sel =>
      if sel = some "button[aria-label=\"avanti\"], button[aria-label=\"next\"], button:has-text(\"Avanti\")" then
        (if next then some 10 else none)
      else if sel = some "button[aria-label=\"indietro\"], button[aria-label=\"prev\"], button:has-text(\"Indietro\")" then
        (if prev then some 11 else none)
      else if sel = some "input[type=\"range\"]" then
        (if slider then some 12 else none)
      else none
    pageQA := fun sel =>
      if sel = some "[type=\"radio\"][name=\"gender\"]" then List.range radios
      else if sel = some "[type=\"checkbox\"][name=\"nationality\"]" then
        List.range checkboxes
      else [] }

/-- The `ok` flag of `checkAdvancedSearchControls` on a `searchPage`. -/
def advSearchOk (next prev slider : Bool) (radios checkboxes : Nat) : Bool :=
  match checkAdvancedSearchControls simpleDriver
      (searchPage next prev slider radios checkboxes) {} with
  | .ok (r, _) => r.ok
  | .error _ => false

/-- A page whose documentation section holds one internal anchor pointing
at the nonexistent id `missing`. -/
def docPageBrokenAnchor : SimplePage :=
  { pageQ := fun sel => if sel = some "#documentation, .documentation" then some 1 else none
    elemQA := fun e sel =>
      if e = 1 ∧ sel = some "a[href^=\"#\"]" then [2] else []
    attrs := fun e a => if e = 2 ∧ a = "href" then some "#missing" else none }

/-- A page whose documentation section holds no internal anchors. -/
def docPageNoAnchors : SimplePage :=
  { pageQ := fun sel => if sel = some "#documentation, .documentation" then some 1 else none }

/-- A page without a documentation section. -/
def noDocPage : SimplePage := {}

/-- `page.$(some sel)` finds an element (the predicate tried by
`firstSelectorExists`). -/
def qHit (d : Driver σ) (s : σ) (sel : String) : Bool :=
  match d.q s (some sel) with
  | .ok (some _) => true
  | _ => false

/-- A login-form page for the selector-fallback helper: only
`input#username` exists. -/
def loginPage : SimplePage :=
  { pageQ := fun sel => if sel = some "input#username" then some 7 else none }

/-- A caller options object carrying a partial `selectors` override: only
`userCard` is supplied. -/
def partialOverride : OptionsJs :=
  { selectors := some { userCard := some ".card" } }

lemma simpleDriver_faultFree : FaultFree simpleDriver where
  goto _ _ := ⟨_, rfl⟩
  q _ _ := ⟨_, rfl⟩
  qa _ _ := ⟨_, rfl⟩
  elemQ _ _ _ := ⟨_, rfl⟩
  elemQA _ _ _ := ⟨_, rfl⟩
  bbox _ _ := ⟨_, rfl⟩
  attr _ _ _ := ⟨_, rfl⟩
  opacityOf _ _ := ⟨_, rfl⟩
  transitionOf _ _ := ⟨_, rfl⟩
  click _ _ := ⟨_, rfl⟩

lemma absentDriver_faultFree : FaultFree absentDriver where
  goto _ _ := ⟨_, rfl⟩
  q _ _ := ⟨_, rfl⟩
  qa _ _ := ⟨_, rfl⟩
  elemQ _ _ _ := ⟨_, rfl⟩
  elemQA _ _ _ := ⟨_, rfl⟩
  bbox _ _ := ⟨_, rfl⟩
  attr _ _ _ := ⟨_, rfl⟩
  opacityOf _ _ := ⟨_, rfl⟩
  transitionOf _ _ := ⟨_, rfl⟩
  click _ _ := ⟨_, rfl⟩

lemma absentDriver_allAbsent : AllAbsent absentDriver where
  q _ _ := rfl
  qa _ _ := rfl
  elemQ _ _ _ := rfl
  elemQA _ _ _ := rfl

lemma ensurePage_total {d : Driver σ} (hd : FaultFree d) (s : σ) (u : String) :
    ∃ t, ensurePage d s u = .ok t := by
  unfold ensurePage
  dsimp only
  split
  · exact hd.goto s u
  · exact ⟨s, rfl⟩

lemma userCardsLoop_total {d : Driver σ} (hd : FaultFree d) (s : σ) (sel : Selectors)
    (l : List Nat) (i : Nat) : ∃ v, userCardsLoop d s sel l i = .ok v := by
  induction l generalizing i with
  | nil => exact ⟨none, rfl⟩
  | cons c rest ih =>
    obtain ⟨n1, h1⟩ := hd.elemQ s c sel.userName
    obtain ⟨n2, h2⟩ := hd.elemQ s c sel.userEmail
    obtain ⟨n3, h3⟩ := hd.elemQ s c sel.userNationality
    unfold userCardsLoop
    rw [h1, h2, h3]
    dsimp only
    split
    · exact ⟨_, rfl⟩
    · exact ih (i + 1)

lemma checkUserCards_total {d : Driver σ} (hd : FaultFree d) (s : σ) (o : OptionsJs) :
    ∃ r t, checkUserCards d s o = .ok (r, t) := by
  obtain ⟨s1, h1⟩ := ensurePage_total hd s (mergeOptions o).url
  obtain ⟨cards, h2⟩ := hd.qa s1 (mergeOptions o).selectors.userCard
  unfold checkUserCards
  dsimp only
  rw [h1]
  dsimp only
  rw [h2]
  dsimp only
  split
  · exact ⟨_, _, rfl⟩
  · obtain ⟨v, h3⟩ := userCardsLoop_total hd s1 (mergeOptions o).selectors cards 0
    rw [h3]
    cases v
    · exact ⟨_, _, rfl⟩
    · exact ⟨_, _, rfl⟩

lemma checkRefreshCenters_total {d : Driver σ} (hd : FaultFree d) (s : σ) (o : OptionsJs) :
    ∃ r t, checkRefreshCenters d s o = .ok (r, t) := by
  obtain ⟨s1, h1⟩ := ensurePage_total hd s (mergeOptions o).url
  obtain ⟨refreshEl, h2⟩ := hd.q s1 (mergeOptions o).selectors.refresh
  have hclick : ∃ s2, (match refreshEl with
      | some r => d.click s1 r
      | none => .ok s1) = Except.ok s2 := by
    cases refreshEl with
    | none => exact ⟨s1, rfl⟩
    | some r => exact hd.click s1 r
  obtain ⟨s2, hc⟩ := hclick
  obtain ⟨card, h3⟩ := hd.q s2 (mergeOptions o).selectors.userCard
  unfold checkRefreshCenters
  dsimp only
  rw [h1]; dsimp only
  rw [h2]; dsimp only
  rw [hc]; dsimp only
  rw [h3]
  cases card with
  | none => exact ⟨_, _, rfl⟩
  | some c =>
    dsimp only
    obtain ⟨box, h4⟩ := hd.bbox s2 c
    rw [h4]
    cases box with
    | none => exact ⟨_, _, rfl⟩
    | some b => exact ⟨_, _, rfl⟩

lemma readableLoop_total {d : Driver σ} (hd : FaultFree d) (s : σ)
    (l : List Nat) (i : Nat) : ∃ v, readableLoop d s l i = .ok v := by
  induction l generalizing i with
  | nil => exact ⟨none, rfl⟩
  | cons c rest ih =>
    obtain ⟨t1, h1⟩ := hd.elemQ s c (some "h1, h2, h3, h4, h5, .title")
    obtain ⟨t2, h2⟩ := hd.elemQ s c (some "p, span, .desc, .info")
    unfold readableLoop
    rw [h1]; dsimp only
    rw [h2]; dsimp only
    split
    · exact ⟨_, rfl⟩
    · exact ih (i + 1)

lemma checkReadableInfo_total {d : Driver σ} (hd : FaultFree d) (s : σ) (o : OptionsJs) :
    ∃ r t, checkReadableInfo d s o = .ok (r, t) := by
  obtain ⟨s1, h1⟩ := ensurePage_total hd s (mergeOptions o).url
  obtain ⟨cards, h2⟩ := hd.qa s1 (mergeOptions o).selectors.userCard
  unfold checkReadableInfo
  dsimp only
  rw [h1]; dsimp only
  rw [h2]; dsimp only
  split
  · exact ⟨_, _, rfl⟩
  · obtain ⟨v, h3⟩ := readableLoop_total hd s1 cards 0
    rw [h3]
    cases v
    · exact ⟨_, _, rfl⟩
    · exact ⟨_, _, rfl⟩

lemma checkAdvancedSearchControls_total {d : Driver σ} (hd : FaultFree d) (s : σ)
    (o : OptionsJs) : ∃ r t, checkAdvancedSearchControls d s o = .ok (r, t) := by
  obtain ⟨s1, h1⟩ := ensurePage_total hd s (mergeOptions o).url
  obtain ⟨next, h2⟩ := hd.q s1 (some "button[aria-label=\"avanti\"], button[aria-label=\"next\"], button:has-text(\"Avanti\")")
  obtain ⟨prev, h3⟩ := hd.q s1 (some "button[aria-label=\"indietro\"], button[aria-label=\"prev\"], button:has-text(\"Indietro\")")
  obtain ⟨slider, h4⟩ := hd.q s1 (some "input[type=\"range\"]")
  obtain ⟨radios, h5⟩ := hd.qa s1 (some "[type=\"radio\"][name=\"gender\"]")
  obtain ⟨checkboxes, h6⟩ := hd.qa s1 (some "[type=\"checkbox\"][name=\"nationality\"]")
  unfold checkAdvancedSearchControls
  dsimp only
  rw [h1]; dsimp only
  rw [h2]; dsimp only
  rw [h3]; dsimp only
  rw [h4]; dsimp only
  rw [h5]; dsimp only
  rw [h6]; dsimp only
  exact ⟨_, _, rfl⟩

lemma checkNavbarPhotos_total {d : Driver σ} (hd : FaultFree d) (s : σ) (o : OptionsJs) :
    ∃ r t, checkNavbarPhotos d s o = .ok (r, t) := by
  obtain ⟨s1, h1⟩ := ensurePage_total hd s (mergeOptions o).url
  obtain ⟨nav, h2⟩ := hd.q s1 (mergeOptions o).selectors.navbarSecondItem
  unfold checkNavbarPhotos
  dsimp only
  rw [h1]; dsimp only
  rw [h2]
  cases nav with
  | none => exact ⟨_, _, rfl⟩
  | some n =>
    dsimp only
    obtain ⟨s2, h3⟩ := hd.click s1 n
    rw [h3]; dsimp only
    obtain ⟨imgs, h4⟩ := hd.qa s2 (mergeOptions o).selectors.userPhotoImg
    rw [h4]
    cases imgs with
    | nil => exact ⟨_, _, rfl⟩
    | cons first rest =>
      dsimp only
      obtain ⟨op1, h5⟩ := hd.opacityOf s2 first
      rw [h5]; dsimp only
      obtain ⟨op2, h6⟩ := hd.opacityOf (d.waitTimeout s2 500) first
      rw [h6]; dsimp only
      obtain ⟨tr, h7⟩ := hd.transitionOf (d.waitTimeout s2 500) first
      rw [h7]; dsimp only
      exact ⟨_, _, rfl⟩

lemma anchorsLoop_total {d : Driver σ} (hd : FaultFree d) (s : σ) (l : List Nat) :
    ∃ v, anchorsLoop d s l = .ok v := by
  induction l with
  | nil => exact ⟨none, rfl⟩
  | cons a rest ih =>
    obtain ⟨href, h1⟩ := hd.attr s a "href"
    unfold anchorsLoop
    rw [h1]; dsimp only
    cases href with
    | none => exact ih
    | some h =>
      dsimp only
      split
      · obtain ⟨tgt, h2⟩ := hd.q s (some ("#" ++ h.drop 1))
        rw [h2]
        cases tgt
        · exact ⟨_, rfl⟩
        · exact ih
      · exact ih

lemma checkDocumentationAnchors_total {d : Driver σ} (hd : FaultFree d) (s : σ)
    (o : OptionsJs) : ∃ r t, checkDocumentationAnchors d s o = .ok (r, t) := by
  obtain ⟨s1, h1⟩ := ensurePage_total hd s (mergeOptions o).url
  obtain ⟨docs, h2⟩ := hd.q s1 (mergeOptions o).selectors.documentation
  unfold checkDocumentationAnchors
  dsimp only
  rw [h1]; dsimp only
  rw [h2]
  cases docs with
  | none => exact ⟨_, _, rfl⟩
  | some dEl =>
    dsimp only
    obtain ⟨anchors, h3⟩ := hd.elemQA s1 dEl (some "a[href^=\"#\"]")
    rw [h3]; dsimp only
    split
    · exact ⟨_, _, rfl⟩
    · obtain ⟨v, h4⟩ := anchorsLoop_total hd s1 anchors
      rw [h4]
      cases v
      · exact ⟨_, _, rfl⟩
      · exact ⟨_, _, rfl⟩

lemma checkVersionsNav_total {d : Driver σ} (hd : FaultFree d) (s : σ) (o : OptionsJs) :
    ∃ r t, checkVersionsNav d s o = .ok (r, t) := by
  obtain ⟨s1, h1⟩ := ensurePage_total hd s (mergeOptions o).url
  obtain ⟨nav, h2⟩ := hd.q s1 (mergeOptions o).selectors.versionsNav
  unfold checkVersionsNav
  dsimp only
  rw [h1]; dsimp only
  rw [h2]; dsimp only
  exact ⟨_, _, rfl⟩

lemma checkAccessChart_total {d : Driver σ} (hd : FaultFree d) (s : σ) (o : OptionsJs) :
    ∃ r t, checkAccessChart d s o = .ok (r, t) := by
  obtain ⟨s1, h1⟩ := ensurePage_total hd s (mergeOptions o).url
  obtain ⟨chart, h2⟩ := hd.q s1 (mergeOptions o).selectors.accessChart
  unfold checkAccessChart
  dsimp only
  rw [h1]; dsimp only
  rw [h2]
  cases chart with
  | none => exact ⟨_, _, rfl⟩
  | some c =>
    dsimp only
    obtain ⟨bars, h3⟩ := hd.elemQA s1 c (some "[class*=\"bar\"], [class*=\"day\"], div[data-progress]")
    rw [h3]; dsimp only
    exact ⟨_, _, rfl⟩

lemma checkDonateAntiBot_total {d : Driver σ} (hd : FaultFree d) (s : σ) (o : OptionsJs) :
    ∃ r t, checkDonateAntiBot d s o = .ok (r, t) := by
  obtain ⟨s1, h1⟩ := ensurePage_total hd s (mergeOptions o).url
  obtain ⟨donate, h2⟩ := hd.q s1 (mergeOptions o).selectors.donateSection
  unfold checkDonateAntiBot
  dsimp only
  rw [h1]; dsimp only
  rw [h2]
  cases donate with
  | none => exact ⟨_, _, rfl⟩
  | some dn =>
    dsimp only
    obtain ⟨robot, h3⟩ := hd.elemQ s1 dn (some "input[type=\"checkbox\"][aria-label*=\"robot\"], label:has-text(\"non sono un robot\")")
    rw [h3]; dsimp only
    obtain ⟨frame, h4⟩ := hd.elemQ s1 dn (some "iframe[src*=\"recaptcha\"], iframe[src*=\"hcaptcha\"]")
    rw [h4]; dsimp only
    exact ⟨_, _, rfl⟩

lemma checkUserCards_absent {d : Driver σ} (hd : FaultFree d) (ha : AllAbsent d)
    (s : σ) (o : OptionsJs) :
    ∃ r t, checkUserCards d s o = .ok (r, t) ∧ r.ok = false := by
  obtain ⟨s1, h1⟩ := ensurePage_total hd s (mergeOptions o).url
  unfold checkUserCards
  dsimp only
  rw [h1]; dsimp only
  rw [ha.qa s1 _]
  dsimp only [List.length_nil]
  rw [if_pos rfl]
  exact ⟨_, _, rfl, rfl⟩

lemma checkRefreshCenters_absent {d : Driver σ} (hd : FaultFree d) (ha : AllAbsent d)
    (s : σ) (o : OptionsJs) :
    ∃ r t, checkRefreshCenters d s o = .ok (r, t) ∧ r.ok = false := by
  obtain ⟨s1, h1⟩ := ensurePage_total hd s (mergeOptions o).url
  unfold checkRefreshCenters
  dsimp only
  rw [h1]; dsimp only
  rw [ha.q s1 _]; dsimp only
  rw [ha.q s1 _]; dsimp only
  exact ⟨_, _, rfl, rfl⟩

lemma checkReadableInfo_absent {d : Driver σ} (hd : FaultFree d) (ha : AllAbsent d)
    (s : σ) (o : OptionsJs) :
    ∃ r t, checkReadableInfo d s o = .ok (r, t) ∧ r.ok = false := by
  obtain ⟨s1, h1⟩ := ensurePage_total hd s (mergeOptions o).url
  unfold checkReadableInfo
  dsimp only
  rw [h1]; dsimp only
  rw [ha.qa s1 _]
  dsimp only [List.length_nil]
  rw [if_pos rfl]
  exact ⟨_, _, rfl, rfl⟩

lemma checkAdvancedSearchControls_absent {d : Driver σ} (hd : FaultFree d)
    (ha : AllAbsent d) (s : σ) (o : OptionsJs) :
    ∃ r t, checkAdvancedSearchControls d s o = .ok (r, t) ∧ r.ok = false := by
  obtain ⟨s1, h1⟩ := ensurePage_total hd s (mergeOptions o).url
  unfold checkAdvancedSearchControls
  dsimp only
  rw [h1]; dsimp only
  rw [ha.q s1 _]; dsimp only
  rw [ha.q s1 _]; dsimp only
  rw [ha.q s1 _]; dsimp only
  rw [ha.qa s1 _]; dsimp only
  rw [ha.qa s1 _]; dsimp only
  exact ⟨_, _, rfl, by decide⟩

lemma checkNavbarPhotos_absent {d : Driver σ} (hd : FaultFree d) (ha : AllAbsent d)
    (s : σ) (o : OptionsJs) :
    ∃ r t, checkNavbarPhotos d s o = .ok (r, t) ∧ r.ok = false := by
  obtain ⟨s1, h1⟩ := ensurePage_total hd s (mergeOptions o).url
  unfold checkNavbarPhotos
  dsimp only
  rw [h1]; dsimp only
  rw [ha.q s1 _]; dsimp only
  exact ⟨_, _, rfl, rfl⟩

lemma checkDocumentationAnchors_absent {d : Driver σ} (hd : FaultFree d)
    (ha : AllAbsent d) (s : σ) (o : OptionsJs) :
    ∃ r t, checkDocumentationAnchors d s o = .ok (r, t) ∧ r.ok = false := by
  obtain ⟨s1, h1⟩ := ensurePage_total hd s (mergeOptions o).url
  unfold checkDocumentationAnchors
  dsimp only
  rw [h1]; dsimp only
  rw [ha.q s1 _]; dsimp only
  exact ⟨_, _, rfl, rfl⟩

lemma checkVersionsNav_absent {d : Driver σ} (hd : FaultFree d) (ha : AllAbsent d)
    (s : σ) (o : OptionsJs) :
    ∃ r t, checkVersionsNav d s o = .ok (r, t) ∧ r.ok = false := by
  obtain ⟨s1, h1⟩ := ensurePage_total hd s (mergeOptions o).url
  unfold checkVersionsNav
  dsimp only
  rw [h1]; dsimp only
  rw [ha.q s1 _]; dsimp only
  exact ⟨_, _, rfl, rfl⟩

lemma checkAccessChart_absent {d : Driver σ} (hd : FaultFree d) (ha : AllAbsent d)
    (s : σ) (o : OptionsJs) :
    ∃ r t, checkAccessChart d s o = .ok (r, t) ∧ r.ok = false := by
  obtain ⟨s1, h1⟩ := ensurePage_total hd s (mergeOptions o).url
  unfold checkAccessChart
  dsimp only
  rw [h1]; dsimp only
  rw [ha.q s1 _]; dsimp only
  exact ⟨_, _, rfl, rfl⟩

lemma checkDonateAntiBot_absent {d : Driver σ} (hd : FaultFree d) (ha : AllAbsent d)
    (s : σ) (o : OptionsJs) :
    ∃ r t, checkDonateAntiBot d s o = .ok (r, t) ∧ r.ok = false := by
  obtain ⟨s1, h1⟩ := ensurePage_total hd s (mergeOptions o).url
  unfold checkDonateAntiBot
  dsimp only
  rw [h1]; dsimp only
  rw [ha.q s1 _]; dsimp only
  exact ⟨_, _, rfl, rfl⟩

lemma ensurePage_fault {d : Driver σ} {s : σ} {u : String} {f : Fault}
    (hu : d.url s = "") (hg : d.goto s u = .error f) :
    ensurePage d s u = .error f := by
  unfold ensurePage
  dsimp only
  rw [hu, if_pos (Or.inl rfl)]
  exact hg

lemma checkUserCards_fault {d : Driver σ} {s : σ} {o : OptionsJs} {f : Fault}
    (hu : d.url s = "") (hg : d.goto s (mergeOptions o).url = .error f) :
    checkUserCards d s o = .error f := by
  unfold checkUserCards
  dsimp only
  rw [ensurePage_fault hu hg]

lemma checkRefreshCenters_fault {d : Driver σ} {s : σ} {o : OptionsJs} {f : Fault}
    (hu : d.url s = "") (hg : d.goto s (mergeOptions o).url = .error f) :
    checkRefreshCenters d s o = .error f := by
  unfold checkRefreshCenters
  dsimp only
  rw [ensurePage_fault hu hg]

lemma checkReadableInfo_fault {d : Driver σ} {s : σ} {o : OptionsJs} {f : Fault}
    (hu : d.url s = "") (hg : d.goto s (mergeOptions o).url = .error f) :
    checkReadableInfo d s o = .error f := by
  unfold checkReadableInfo
  dsimp only
  rw [ensurePage_fault hu hg]

lemma checkAdvancedSearchControls_fault {d : Driver σ} {s : σ} {o : OptionsJs} {f : Fault}
    (hu : d.url s = "") (hg : d.goto s (mergeOptions o).url = .error f) :
    checkAdvancedSearchControls d s o = .error f := by
  unfold checkAdvancedSearchControls
  dsimp only
  rw [ensurePage_fault hu hg]

lemma checkNavbarPhotos_fault {d : Driver σ} {s : σ} {o : OptionsJs} {f : Fault}
    (hu : d.url s = "") (hg : d.goto s (mergeOptions o).url = .error f) :
    checkNavbarPhotos d s o = .error f := by
  unfold checkNavbarPhotos
  dsimp only
  rw [ensurePage_fault hu hg]

lemma checkDocumentationAnchors_fault {d : Driver σ} {s : σ} {o : OptionsJs} {f : Fault}
    (hu : d.url s = "") (hg : d.goto s (mergeOptions o).url = .error f) :
    checkDocumentationAnchors d s o = .error f := by
  unfold checkDocumentationAnchors
  dsimp only
  rw [ensurePage_fault hu hg]

lemma checkVersionsNav_fault {d : Driver σ} {s : σ} {o : OptionsJs} {f : Fault}
    (hu : d.url s = "") (hg : d.goto s (mergeOptions o).url = .error f) :
    checkVersionsNav d s o = .error f := by
  unfold checkVersionsNav
  dsimp only
  rw [ensurePage_fault hu hg]

lemma checkAccessChart_fault {d : Driver σ} {s : σ} {o : OptionsJs} {f : Fault}
    (hu : d.url s = "") (hg : d.goto s (mergeOptions o).url = .error f) :
    checkAccessChart d s o = .error f := by
  unfold checkAccessChart
  dsimp only
  rw [ensurePage_fault hu hg]

lemma checkDonateAntiBot_fault {d : Driver σ} {s : σ} {o : OptionsJs} {f : Fault}
    (hu : d.url s = "") (hg : d.goto s (mergeOptions o).url = .error f) :
    checkDonateAntiBot d s o = .error f := by
  unfold checkDonateAntiBot
  dsimp only
  rw [ensurePage_fault hu hg]

/-- C3: `ensurePage` is an idempotent entry guard: it navigates (calls
`goto`) exactly when the current location is blank (empty or
`about:blank`); a page whose URL is already set is returned unchanged,
never re-navigated. -/
theorem ensurePage_entry_guard {σ : Type} (d : Driver σ) (s : σ) (u : String) :
    (d.url s ≠ "" → d.url s ≠ "about:blank" → ensurePage d s u = .ok s) ∧
    (d.url s = "" ∨ d.url s = "about:blank" → ensurePage d s u = d.goto s u) := by
  constructor
  · intro h1 h2
    unfold ensurePage
    dsimp only
    rw [if_neg (not_or.mpr ⟨h1, h2⟩)]
  · intro h
    unfold ensurePage
    dsimp only
    rw [if_pos h]

/-- Witness for C3 at concrete pages: an already-loaded page is left
unchanged, a blank page is navigated. -/
theorem ensurePage_entry_guard_witness :
    ensurePage simpleDriver { url := "http://localhost:3000" } "http://other" =
      .ok { url := "http://localhost:3000" } ∧
    ensurePage simpleDriver { url := "" } "http://other" =
      simpleDriver.goto { url := "" } "http://other" :=
  ⟨(ensurePage_entry_guard simpleDriver _ _).1 (by decide) (by decide),
   (ensurePage_entry_guard simpleDriver _ _).2 (Or.inl rfl)⟩

/-- C4: the spread merge is shallow: a caller-supplied `selectors` object
replaces the entire default selector map (an inner key missing from the
override is NOT patched from the defaults), while a top-level key absent
from the options (`url`) takes its default value. -/
theorem mergeOptions_shallow (o : OptionsJs) (ps : Selectors)
    (h : o.selectors = some ps) :
    (mergeOptions o).selectors = ps ∧
    (ps.userName = none →
      (mergeOptions o).selectors.userName ≠ DEFAULT_OPTIONS.selectors.userName) ∧
    (o.url = none → (mergeOptions o).url = DEFAULT_OPTIONS.url) := by
  unfold mergeOptions
  rw [h]
  refine ⟨rfl, ?_, ?_⟩
  · intro hn
    simp [hn, DEFAULT_OPTIONS]
  · intro hu
    rw [hu]
    rfl

/-- Witness for C4: a partial override keeps only its own keys — the merged
`userName` is not the default — and the default URL survives. -/
theorem mergeOptions_shallow_witness :
    (mergeOptions partialOverride).selectors = { userCard := some ".card" } ∧
    (mergeOptions partialOverride).selectors.userName ≠ DEFAULT_OPTIONS.selectors.userName ∧
    (mergeOptions partialOverride).url = DEFAULT_OPTIONS.url := by
  have h := mergeOptions_shallow partialOverride { userCard := some ".card" } rfl
  exact ⟨h.1, h.2.1 rfl, h.2.2 rfl⟩

/-- C9: `firstSelectorExists` is a prioritized-order lookup: it returns the
first selector in list order whose `page.$` finds an element, and `none`
when no selector in the list matches. -/
theorem firstSelectorExists_first_match {σ : Type} (d : Driver σ) (s : σ)
    (sels : List String) (hq : ∀ sel, ∃ v, d.q s (some sel) = .ok v) :
    firstSelectorExists d s sels = .ok (sels.find? (qHit d s)) := by
  induction sels with
  | nil => rfl
  | cons a rest ih =>
    obtain ⟨v, hv⟩ := hq a
    unfold firstSelectorExists
    rw [hv]
    cases v with
    | none =>
      dsimp only
      have ha : qHit d s a = false := by unfold qHit; rw [hv]
      rw [ih, List.find?_cons, ha]
    | some e =>
      dsimp only
      have ha : qHit d s a = true := by unfold qHit; rw [hv]
      rw [List.find?_cons, ha]

/-- Witness for C9 on the login page: among the username selector
candidates, the second is the first that exists. -/
theorem firstSelectorExists_first_match_witness :
    firstSelectorExists simpleDriver loginPage
      ["input[name=\"username\"]", "input#username", "input[name=\"login\"]"] =
      .ok (some "input#username") := by
  rw [firstSelectorExists_first_match simpleDriver loginPage _ (fun sel => ⟨_, rfl⟩)]
  rfl

/-- C2: on a fault-free driver every check returns a `CheckResult` (never a
fault), and when every probed element is absent the result is `ok := false`
rather than an exception; a Page Driver fault (navigation failure on a
blank page) propagates out of every check unswallowed. -/
theorem checks_absence_vs_faults {σ : Type} (c : CheckFn σ) (hc : c ∈ allChecks σ)
    (d : Driver σ) (s : σ) (o : OptionsJs) :
    (FaultFree d → ∃ r t, c d s o = .ok (r, t)) ∧
    (FaultFree d → AllAbsent d → ∃ r t, c d s o = .ok (r, t) ∧ r.ok = false) ∧
    (∀ f, d.url s = "" → d.goto s (mergeOptions o).url = .error f →
      c d s o = .error f) := by
  simp only [allChecks, List.mem_cons, List.not_mem_nil, or_false] at hc
  rcases hc with rfl | rfl | rfl | rfl | rfl | rfl | rfl | rfl | rfl
  · exact ⟨fun hd => checkUserCards_total hd s o,
           fun hd ha => checkUserCards_absent hd ha s o,
           fun f hu hg => checkUserCards_fault hu hg⟩
  · exact ⟨fun hd => checkRefreshCenters_total hd s o,
           fun hd ha => checkRefreshCenters_absent hd ha s o,
           fun f hu hg => checkRefreshCenters_fault hu hg⟩
  · exact ⟨fun hd => checkReadableInfo_total hd s o,
           fun hd ha => checkReadableInfo_absent hd ha s o,
           fun f hu hg => checkReadableInfo_fault hu hg⟩
  · exact ⟨fun hd => checkAdvancedSearchControls_total hd s o,
           fun hd ha => checkAdvancedSearchControls_absent hd ha s o,
           fun f hu hg => checkAdvancedSearchControls_fault hu hg⟩
  · exact ⟨fun hd => checkNavbarPhotos_total hd s o,
           fun hd ha => checkNavbarPhotos_absent hd ha s o,
           fun f hu hg => checkNavbarPhotos_fault hu hg⟩
  · exact ⟨fun hd => checkDocumentationAnchors_total hd s o,
           fun hd ha => checkDocumentationAnchors_absent hd ha s o,
           fun f hu hg => checkDocumentationAnchors_fault hu hg⟩
  · exact ⟨fun hd => checkVersionsNav_total hd s o,
           fun hd ha => checkVersionsNav_absent hd ha s o,
           fun f hu hg => checkVersionsNav_fault hu hg⟩
  · exact ⟨fun hd => checkAccessChart_total hd s o,
           fun hd ha => checkAccessChart_absent hd ha s o,
           fun f hu hg => checkAccessChart_fault hu hg⟩
  · exact ⟨fun hd => checkDonateAntiBot_total hd s o,
           fun hd ha => checkDonateAntiBot_absent hd ha s o,
           fun f hu hg => checkDonateAntiBot_fault hu hg⟩

/-- Witness for C2: on the all-absent driver `checkUserCards` reports
`ok := false` without faulting, and on a blank page whose navigation
rejects, the fault surfaces from the check. -/
theorem checks_absence_vs_faults_witness :
    (∃ r t, checkUserCards absentDriver () {} = Except.ok (r, t) ∧ r.ok = false) ∧
    checkUserCards faultyNavDriver () {} =
      Except.error { msg := "net::ERR_CONNECTION_REFUSED" } := by
  constructor
  · exact (checks_absence_vs_faults checkUserCards (by simp [allChecks])
      absentDriver () {}).2.1 absentDriver_faultFree absentDriver_allAbsent
  · exact (checks_absence_vs_faults checkUserCards (by simp [allChecks])
      faultyNavDriver () {}).2.2 { msg := "net::ERR_CONNECTION_REFUSED" } rfl rfl

/-- C1: for every `Report` produced by `runAll`, `overall.ok` is `true`
iff every `CheckResult` stored in `details` has `ok = true` — the logical
AND of the nine per-check flags. -/
theorem runAll_overall_conj {σ : Type} (d : Driver σ) (s : σ) (o : OptionsJs)
    (rep : Report) (t : σ) (h : runAll d s o = .ok (rep, t)) :
    rep.overall.ok = true ↔
      (rep.details.userCards.ok = true ∧ rep.details.refreshCenter.ok = true ∧
       rep.details.readableInfo.ok = true ∧ rep.details.advancedSearch.ok = true ∧
       rep.details.navbarPhotos.ok = true ∧ rep.details.documentation.ok = true ∧
       rep.details.versionsNav.ok = true ∧ rep.details.accessChart.ok = true ∧
       rep.details.donate.ok = true) := by
  unfold runAll at h
  repeat' split at h
  all_goals first
    | exact Except.noConfusion h
    | (dsimp only at h
       rw [Except.ok.injEq, Prod.mk.injEq] at h
       obtain ⟨hr, ht⟩ := h
       subst hr
       simp only [Results.values, List.all_cons, List.all_nil, Bool.and_true,
         Bool.and_eq_true]
       try tauto)

/-- Witness for C1: `runAll` on a page where everything is absent yields a
report on which the equivalence is checked concretely. -/
theorem runAll_overall_conj_witness :
    ∃ rep t, runAll simpleDriver {} {} = Except.ok (rep, t) ∧
      (rep.overall.ok = true ↔
        (rep.details.userCards.ok = true ∧ rep.details.refreshCenter.ok = true ∧
         rep.details.readableInfo.ok = true ∧ rep.details.advancedSearch.ok = true ∧
         rep.details.navbarPhotos.ok = true ∧ rep.details.documentation.ok = true ∧
         rep.details.versionsNav.ok = true ∧ rep.details.accessChart.ok = true ∧
         rep.details.donate.ok = true)) := by
  refine ⟨_, _, rfl, runAll_overall_conj simpleDriver {} {} _ _ rfl⟩

lemma checkRefreshCenters_cardPage (vp : Option Viewport) (b : Box) :
    checkRefreshCenters simpleDriver (cardPage vp b) {} =
      .ok (let viewport := vp.getD { width := 1024, height := 768 }
           let deltaX := |b.x + b.width / 2 - viewport.width / 2|
           let deltaY := |b.y + b.height / 2 - viewport.height / 2|
           let ok := decide (deltaX < viewport.width * 0.25) &&
                     decide (deltaY < viewport.height * 0.25)
           ({ ok := ok
              message := some (if ok then "Card centrata" else "Card non centrata")
              details := some (.center deltaX deltaY viewport) }, cardPage vp b)) := by
  rfl

/-- C5: on a 1024×768 viewport, a card whose bounding-box center coincides
with the viewport center (512, 384) passes the refresh-recenter check; a
card whose center is offset by more than 256 — 25% of the 1024 viewport
width — on either axis fails it. -/
theorem checkRefreshCenters_centering (b : Box) :
    (b.x + b.width / 2 = 512 ∧ b.y + b.height / 2 = 384 → refreshOk b = true) ∧
    (|b.x + b.width / 2 - 512| > 256 ∨ |b.y + b.height / 2 - 384| > 256 →
      refreshOk b = false) := by
  have heval : refreshOk b =
      (decide (|b.x + b.width / 2 - 1024 / 2| < 1024 * 0.25) &&
       decide (|b.y + b.height / 2 - 768 / 2| < 768 * 0.25)) := by
    unfold refreshOk
    rw [checkRefreshCenters_cardPage]
    rfl
  have e1 : (1024 : ℚ) * 0.25 = 256 := by norm_num
  have e2 : (768 : ℚ) * 0.25 = 192 := by norm_num
  have e3 : (1024 : ℚ) / 2 = 512 := by norm_num
  have e4 : (768 : ℚ) / 2 = 384 := by norm_num
  rw [heval, e1, e2, e3, e4]
  constructor
  · rintro ⟨hx, hy⟩
    rw [hx, hy]
    norm_num
  · intro h
    rcases h with h | h
    · have hnot : ¬ (|b.x + b.width / 2 - 512| < 256) := by linarith
      simp [hnot]
    · have hnot : ¬ (|b.y + b.height / 2 - 384| < 192) := by linarith
      simp [hnot]

/-- Witness for C5: a box centered at (512, 384) passes; a box whose
center sits at x = 1000 (offset 488 > 256) fails. -/
theorem checkRefreshCenters_centering_witness :
    refreshOk { x := 412, y := 284, width := 200, height := 200 } = true ∧
    refreshOk { x := 900, y := 284, width := 200, height := 200 } = false :=
  ⟨(checkRefreshCenters_centering _).1 (by norm_num),
   (checkRefreshCenters_centering _).2 (Or.inl (by norm_num))⟩

/-- C10: when `viewportSize()` reports no viewport, the refresh-recenter
check neither fails nor faults: its result is exactly the result computed
against the 1024×768 fallback viewport. -/
theorem checkRefreshCenters_viewport_fallback (b : Box) :
    refreshResultOn none b =
      refreshResultOn (some { width := 1024, height := 768 }) b ∧
    (refreshResultOn none b).isSome = true := by
  constructor <;> rfl

lemma userCardsLoop_cardsPage (n : Nat) (l : List Nat) (i : Nat) :
    userCardsLoop simpleDriver (cardsPage n) DEFAULT_OPTIONS.selectors l i =
      .ok none := by
  induction l generalizing i with
  | nil => rfl
  | cons c rest ih => exact ih (i + 1)

/-- C6: the card-presence check on a page with `n` well-formed cards:
zero cards yield `ok := false` with `details.count = 0`; `n > 0` cards
each holding name, email and nationality yield `ok := true` with
`details.count = n`. -/
theorem checkUserCards_count (n : Nat) :
    checkUserCards simpleDriver (cardsPage n) {} =
      .ok (if n = 0 then
             { ok := false, message := some "Nessuna user card trovata"
               details := some (.count 0) }
           else
             { ok := true, message := some "User cards OK"
               details := some (.count n) }, cardsPage n) := by
  unfold checkUserCards
  dsimp only
  rw [show ensurePage simpleDriver (cardsPage n) (mergeOptions {}).url =
        .ok (cardsPage n) from rfl]
  dsimp only
  rw [show simpleDriver.qa (cardsPage n) (mergeOptions {}).selectors.userCard =
        .ok (List.range n) from rfl]
  dsimp only
  rw [show (mergeOptions {}).selectors = DEFAULT_OPTIONS.selectors from rfl,
      userCardsLoop_cardsPage n (List.range n) 0]
  dsimp only
  rw [List.length_range]
  by_cases hn : n = 0
  · rw [if_pos hn, if_pos hn]
  · rw [if_neg hn, if_neg hn]

/-- C7: a documentation anchor whose target id (`missing`) does not exist
yields `ok := false` with a message naming that id; a documentation
section with zero internal anchors yields `ok := false` with a message
distinct from the one produced when the section itself is not found. -/
theorem checkDocumentationAnchors_distinctions :
    checkDocumentationAnchors simpleDriver docPageBrokenAnchor {} =
      .ok ({ ok := false, message := some "Anchor punta a id mancante: missing" },
           docPageBrokenAnchor) ∧
    checkDocumentationAnchors simpleDriver docPageNoAnchors {} =
      .ok ({ ok := false, message := some "Nessun anchor interno nella documentazione" },
           docPageNoAnchors) ∧
    checkDocumentationAnchors simpleDriver noDocPage {} =
      .ok ({ ok := false, message := some "Sezione documentazione non trovata" },
           noDocPage) ∧
    some "Nessun anchor interno nella documentazione" ≠
      some "Sezione documentazione non trovata" :=
  ⟨rfl, rfl, rfl, by decide⟩

/-- C8: the advanced-search check passes iff (next or prev button present)
and a range slider present and at least two gender radios and at least one
nationality checkbox. -/
theorem checkAdvancedSearchControls_iff (next prev slider : Bool)
    (radios checkboxes : Nat) :
    advSearchOk next prev slider radios checkboxes = true ↔
      ((next = true ∨ prev = true) ∧ slider = true ∧
        2 ≤ radios ∧ 1 ≤ checkboxes) := by
  unfold advSearchOk checkAdvancedSearchControls ensurePage
  cases next <;> cases prev <;> cases slider <;>
    simp [simpleDriver, searchPage, mergeOptions, DEFAULT_OPTIONS]

end RandomUserChecks
